import Mathlib

/-!
Shallow embedding of the invoice-processing core of the repository:
the money normalizer and `saveInvoice` / `updateInvoiceStatus`
(`src/unnamed/part_002`, the drizzle invoice-queries module), and the
invoice branch of the chat route handler
(`src/app/(chat)/api/chat/route.ts`): markdown-fence stripping,
`JSON.parse`, the validation-status gate, conversion to `InvoiceData`
and persistence, together with the 30-second timeout race of the
orchestrator.  JavaScript numbers are modelled as exact rationals,
storage as explicit lists of rows, and fallible inserts via explicit
failure flags.
-/

namespace InvoiceProc

/-- A JavaScript number, represented exactly as a fraction `n / d`
(every number reaching the invoice path is a finite decimal).  The
representation is not reduced; value equality is `JsNum.eq`. -/
structure JsNum where
  n : ℤ
  d : ℕ
deriving DecidableEq

/-- Value equality of two `JsNum` fractions (cross multiplication). -/
def JsNum.eq (a b : JsNum) : Prop := a.n * (b.d : ℤ) = b.n * (a.d : ℤ)

instance (a b : JsNum) : Decidable (JsNum.eq a b) := by
  unfold JsNum.eq; infer_instance

def JsNum.ofInt (n : ℤ) : JsNum := ⟨n, 1⟩

/-- Multiply a JavaScript number by a natural constant. -/
def JsNum.mulNat (a : JsNum) (k : ℕ) : JsNum := ⟨a.n * (k : ℤ), a.d⟩

def JsNum.neg (a : JsNum) : JsNum := ⟨-a.n, a.d⟩

/-- `Math.round` in JavaScript: round half toward positive infinity,
i.e. `⌊x + 1/2⌋`.  For `x = n/d` with `d > 0` this is
`⌊(2n + d) / (2d)⌋`, a floor division. -/
def JsNum.round (a : JsNum) : ℤ := Int.fdiv (2 * a.n + (a.d : ℤ)) (2 * (a.d : ℤ))

/-- `Math.round (x * 100)`, the cents conversion used by `saveInvoice`. -/
def jsRound100 (x : JsNum) : ℤ := JsNum.round (x.mulNat 100)

/-- JavaScript `s1 || s2` for strings: the empty string is falsy. -/
def jsOrStr (o : Option String) (d : String) : String :=
  match o with
  | none => d
  | some s => if s = "" then d else s

/-- JSON values as produced by `JSON.parse` (numbers as exact rationals). -/
inductive Json where
  | null : Json
  | bool (b : Bool) : Json
  | num (q : JsNum) : Json
  | str (s : String) : Json
  | arr (elems : List Json) : Json
  | obj (members : List (String × Json)) : Json

/-- Last binding of a key in an object member list (`JSON.parse` keeps the
last duplicate key). -/
def lookupLast (ms : List (String × Json)) (k : String) : Option Json :=
  match ms with
  | [] => none
  | (k2, v) :: rest =>
    match lookupLast rest k with
    | some r => some r
    | none => if k2 = k then some v else none

/-- JavaScript property access `o.k` on a defined non-null value: member of
an object, `undefined` (`none`) on primitives and arrays. -/
def jsMember (j : Json) (k : String) : Option Json :=
  match j with
  | Json.obj ms => lookupLast ms k
  | _ => none

/-- JavaScript truthiness of a possibly-undefined value (`none` is
`undefined`).  `NaN` does not arise in the embedding. -/
def truthy (v : Option Json) : Bool :=
  match v with
  | none => false
  | some Json.null => false
  | some (Json.bool b) => b
  | some (Json.num q) => decide (q.n ≠ 0)
  | some (Json.str s) => decide (s ≠ "")
  | some (Json.arr _) => true
  | some (Json.obj _) => true

/-! ### A JSON parser, embedding `JSON.parse`

Escapes cover the single-character forms; numbers are decimal with
optional fraction and exponent. -/

def skipWs : List Char → List Char
  | [] => []
  | c :: rest => if c = ' ' ∨ c = '\n' ∨ c = '\t' ∨ c = '\r' then skipWs rest else c :: rest

def escChar (c : Char) : Char :=
  if c = 'n' then '\n'
  else if c = 't' then '\t'
  else if c = 'r' then '\r'
  else if c = 'b' then (Char.ofNat 8)
  else if c = 'f' then (Char.ofNat 12)
  else c

/-- Parse the body of a string literal (the opening quote already
consumed), returning the characters and the rest of the input. -/
def parseStringAux : List Char → Option (List Char × List Char)
  | [] => none
  | '"' :: rest => some ([], rest)
  | '\\' :: c :: rest =>
    (parseStringAux rest).map (fun p => (escChar c :: p.1, p.2))
  | c :: rest =>
    (parseStringAux rest).map (fun p => (c :: p.1, p.2))

def natOfDigits (ds : List Char) : ℕ :=
  ds.foldl (fun n c => 10 * n + (c.toNat - 48)) 0

def parseNumber (cs : List Char) : Option (JsNum × List Char) :=
  let (neg, cs1) :=
    match cs with
    | '-' :: r => (true, r)
    | _ => (false, cs)
  let ds := cs1.takeWhile Char.isDigit
  let cs2 := cs1.dropWhile Char.isDigit
  if ds.isEmpty then none
  else
    let ip : ℕ := natOfDigits ds
    let (mantissa, cs3) :=
      match cs2 with
      | '.' :: r =>
        let fs := r.takeWhile Char.isDigit
        let r2 := r.dropWhile Char.isDigit
        if fs.isEmpty then (none, cs2)
        else
          (some (JsNum.mk ((ip * 10 ^ fs.length + natOfDigits fs : ℕ) : ℤ) (10 ^ fs.length)), r2)
      | _ => (some (JsNum.ofInt (ip : ℤ)), cs2)
    match mantissa with
    | none => none
    | some m =>
      let (final, cs4) :=
        match cs3 with
        | 'e' :: r => (none, r)
        | 'E' :: r => (none, r)
        | _ => (some m, cs3)
      match final with
      | some v => some ((if neg then v.neg else v), cs4)
      | none =>
        let (eneg, cs5) :=
          match cs4 with
          | '-' :: r => (true, r)
          | '+' :: r => (false, r)
          | _ => (false, cs4)
        let es := cs5.takeWhile Char.isDigit
        let cs6 := cs5.dropWhile Char.isDigit
        if es.isEmpty then none
        else
          let e := natOfDigits es
          let v := if eneg then JsNum.mk m.n (m.d * 10 ^ e) else m.mulNat (10 ^ e)
          some ((if neg then v.neg else v), cs6)

/-- The opening curly brace character. -/
def braceO : Char := Char.ofNat 123

/-- The closing curly brace character. -/
def braceC : Char := Char.ofNat 125

mutual

def parseValue : ℕ → List Char → Option (Json × List Char)
  | 0, _ => none
  | Nat.succ fuel, cs =>
    match skipWs cs with
    | '"' :: rest =>
      (parseStringAux rest).map (fun p => (Json.str (String.mk p.1), p.2))
    | 't' :: 'r' :: 'u' :: 'e' :: rest => some (Json.bool true, rest)
    | 'f' :: 'a' :: 'l' :: 's' :: 'e' :: rest => some (Json.bool false, rest)
    | 'n' :: 'u' :: 'l' :: 'l' :: rest => some (Json.null, rest)
    | '[' :: rest =>
      (match skipWs rest with
       | ']' :: r2 => some (Json.arr [], r2)
       | r2 => (parseElems fuel r2).map (fun p => (Json.arr p.1, p.2)))
    | c :: rest =>
      if c = braceO then
        match skipWs rest with
        | c2 :: r2 =>
          if c2 = braceC then some (Json.obj [], r2)
          else (parseMembers fuel (c2 :: r2)).map (fun p => (Json.obj p.1, p.2))
        | [] => none
      else (parseNumber (c :: rest)).map (fun p => (Json.num p.1, p.2))
    | [] => none

def parseElems : ℕ → List Char → Option (List Json × List Char)
  | 0, _ => none
  | Nat.succ fuel, cs =>
    match parseValue fuel cs with
    | none => none
    | some (v, r) =>
      match skipWs r with
      | ',' :: r2 =>
        (parseElems fuel r2).map (fun p => (v :: p.1, p.2))
      | ']' :: r2 => some ([v], r2)
      | _ => none

def parseMembers : ℕ → List Char → Option (List (String × Json) × List Char)
  | 0, _ => none
  | Nat.succ fuel, cs =>
    match skipWs cs with
    | '"' :: rest =>
      match parseStringAux rest with
      | none => none
      | some (kcs, r) =>
        match skipWs r with
        | ':' :: r2 =>
          match parseValue fuel r2 with
          | none => none
          | some (v, r3) =>
            match skipWs r3 with
            | ',' :: r4 =>
              (parseMembers fuel r4).map (fun p => ((String.mk kcs, v) :: p.1, p.2))
            | c4 :: r4 =>
              if c4 = braceC then some ([(String.mk kcs, v)], r4) else none
            | [] => none
        | _ => none
    | _ => none

end

/-- `JSON.parse`: parse a complete JSON document; trailing content other
than whitespace is an error. -/
def jsonParse (s : String) : Option Json :=
  match parseValue (s.length + 1) s.toList with
  | none => none
  | some (j, rest) => if (skipWs rest).isEmpty then some j else none

/-! ### Markdown fence stripping (route.ts lines 360-363)

`content.replace(/BT BT BT json\n?/g, '').replace(/BT BT BT\n?/g, '').trim()`
where BT is a backtick: each global replace scans left to right and
removes the pattern together with one optional following newline. -/

def removeFenceAux (pat : List Char) : ℕ → List Char → List Char
  | 0, cs => cs
  | _ + 1, [] => []
  | fuel + 1, c :: rest =>
    if pat.isPrefixOf (c :: rest) then
      match (c :: rest).drop pat.length with
      | '\n' :: r => removeFenceAux pat fuel r
      | r => removeFenceAux pat fuel r
    else c :: removeFenceAux pat fuel rest

def removeFence (pat : String) (s : String) : String :=
  String.mk (removeFenceAux pat.toList s.length s.toList)

def fenceJson : String := "```json"

def fencePlain : String := "```"

def isWsChar (c : Char) : Bool :=
  c = ' ' ∨ c = '\n' ∨ c = '\t' ∨ c = '\r'

/-- `String.prototype.trim`: strip leading and trailing whitespace. -/
def jsTrim (s : String) : String :=
  String.mk (((s.toList.dropWhile isWsChar).reverse.dropWhile isWsChar).reverse)

def cleanContent (s : String) : String :=
  jsTrim (removeFence fencePlain (removeFence fenceJson s))

/-! ### The data model (schema.ts) and the persistence service
(src/unnamed/part_002) -/

/-- A `Date` value on the invoice path: either constructed from an ISO
timestamp string (kept as that string; the fixed-width ISO-8601 UTC
format orders lexicographically like the timestamp) or an invalid date.
`new Date` applied to a non-string is not reached by any theorem and is
collapsed to `invalid`. -/
inductive JDate where
  | invalid : JDate
  | iso (s : String) : JDate
deriving DecidableEq

def jsDate : Option Json → JDate
  | some (Json.str s) => JDate.iso s
  | _ => JDate.invalid

def charListLt : List Char → List Char → Bool
  | [], [] => false
  | [], _ :: _ => true
  | _ :: _, [] => false
  | a :: as, b :: bs => if a < b then true else if b < a then false else charListLt as bs

/-- Lexicographic character order on strings; on two timestamps in the
fixed-width ISO-8601 UTC format this coincides with chronological
order. -/
def strLt (s t : String) : Bool := charListLt s.toList t.toList

inductive Status where
  | pending : Status
  | validated : Status
  | invalid : Status
  | processed : Status
deriving DecidableEq

/-- One row of the `Invoice` table. -/
structure InvoiceRow where
  id : String
  createdAt : ℕ
  invoiceNumber : String
  issueDate : JDate
  dueDate : JDate
  totalAmount : ℤ
  currency : String
  status : Status
  customerName : String
  customerAddress : Option String
  customerContact : Option String
  customerTaxId : Option String
  vendorName : String
  vendorAddress : Option String
  vendorContact : Option String
  vendorTaxId : Option String
  paymentTerms : Option String
  notes : Option String
  originalFileUrl : Option String
  processingErrors : Option String
deriving DecidableEq

/-- One row of the `InvoiceLineItem` table. -/
structure LineItemRow where
  id : String
  invoiceId : String
  description : String
  quantity : JsNum
  unitPrice : ℤ
  totalPrice : ℤ
  taxRate : Option JsNum
  taxAmount : Option ℤ
  sku : Option String
  category : Option String
deriving DecidableEq

/-- The storage state: the two invoice tables, rows in insertion order. -/
structure DB where
  invoices : List InvoiceRow
  lineItems : List LineItemRow
deriving DecidableEq

def DB.empty : DB := ⟨[], []⟩

/-- The `InvoiceData` input type of `saveInvoice` (part_002 lines 12-39). -/
structure LineItemInput where
  description : String
  quantity : JsNum
  unitPrice : JsNum
  totalPrice : JsNum
  taxRate : Option JsNum
  taxAmount : Option JsNum
  sku : Option String
  category : Option String
deriving DecidableEq

structure InvoiceData where
  invoiceNumber : String
  issueDate : JDate
  dueDate : JDate
  totalAmount : JsNum
  currency : Option String
  customerName : String
  customerAddress : Option String
  customerContact : Option String
  customerTaxId : Option String
  vendorName : String
  vendorAddress : Option String
  vendorContact : Option String
  vendorTaxId : Option String
  paymentTerms : Option String
  notes : Option String
  originalFileUrl : Option String
  lineItems : List LineItemInput
deriving DecidableEq

/-- The ambient effects of one persistence call: the generated UUIDs,
the clock, and which of the underlying storage inserts/updates fail. -/
structure SaveEnv where
  newId : String
  itemId : ℕ → String
  now : ℕ
  invoiceInsertFails : Bool
  lineItemInsertFails : Bool
  updateFails : Bool

def failMsg : String := "Failed to save invoice data"

def defaultCurrency : String := "USD"

/-- The invoice row built by `saveInvoice` (part_002 lines 49-69). -/
def mkInvoiceRow (env : SaveEnv) (data : InvoiceData) : InvoiceRow :=
  { id := env.newId
    createdAt := env.now
    invoiceNumber := data.invoiceNumber
    issueDate := data.issueDate
    dueDate := data.dueDate
    totalAmount := jsRound100 data.totalAmount
    currency := jsOrStr data.currency defaultCurrency
    status := Status.validated
    customerName := data.customerName
    customerAddress := data.customerAddress
    customerContact := data.customerContact
    customerTaxId := data.customerTaxId
    vendorName := data.vendorName
    vendorAddress := data.vendorAddress
    vendorContact := data.vendorContact
    vendorTaxId := data.vendorTaxId
    paymentTerms := data.paymentTerms
    notes := data.notes
    originalFileUrl := data.originalFileUrl
    processingErrors := none }

/-- One line-item row built by `saveInvoice` (part_002 lines 74-85):
`unitPrice`/`totalPrice` converted to cents, `quantity` and `taxRate`
stored verbatim, `taxAmount` converted only when truthy (so a zero tax
amount is stored as absent). -/
def mkLineItemRow (env : SaveEnv) (invoiceId : String) (i : ℕ) (item : LineItemInput) : LineItemRow :=
  { id := env.itemId i
    invoiceId := invoiceId
    description := item.description
    quantity := item.quantity
    unitPrice := jsRound100 item.unitPrice
    totalPrice := jsRound100 item.totalPrice
    taxRate := item.taxRate
    taxAmount :=
      match item.taxAmount with
      | some ta => if ta.n = 0 then none else some (jsRound100 ta)
      | none => none
    sku := item.sku
    category := item.category }

def mkLineItemRows (env : SaveEnv) (invoiceId : String) : ℕ → List LineItemInput → List LineItemRow
  | _, [] => []
  | i, item :: rest =>
    mkLineItemRow env invoiceId i item :: mkLineItemRows env invoiceId (i + 1) rest

/-- `saveInvoice` (part_002 lines 41-94): insert the invoice row, then,
if there are line items, insert the line-item rows.  The two inserts are
separate statements with no surrounding transaction; any storage error
is caught and re-thrown as a generic failure, leaving whatever was
already inserted in place. -/
def saveInvoice (env : SaveEnv) (data : InvoiceData) (db : DB) : Except String InvoiceRow × DB :=
  if env.invoiceInsertFails then (Except.error failMsg, db)
  else
    let row := mkInvoiceRow env data
    let db1 : DB := { db with invoices := db.invoices ++ [row] }
    if 0 < data.lineItems.length then
      if env.lineItemInsertFails then (Except.error failMsg, db1)
      else
        (Except.ok row,
          { db1 with lineItems := db1.lineItems ++ mkLineItemRows env env.newId 0 data.lineItems })
    else (Except.ok row, db1)

/-- `getInvoiceById` (part_002 lines 96-104). -/
def getInvoiceById (id : String) (db : DB) : Option InvoiceRow :=
  db.invoices.find? (fun r => r.id = id)

/-- `getInvoiceLineItems` (part_002 lines 106-113). -/
def getInvoiceLineItems (invoiceId : String) (db : DB) : List LineItemRow :=
  db.lineItems.filter (fun r => r.invoiceId = invoiceId)

def escapeJsonChar (c : Char) : List Char :=
  if c = '"' then [ '\\', '"' ]
  else if c = '\\' then [ '\\', '\\' ]
  else if c = '\n' then [ '\\', 'n' ]
  else [c]

def quoteJson (s : String) : String :=
  String.mk (('"' :: s.toList.foldr (fun c acc => escapeJsonChar c ++ acc) []) ++ [ '"' ])

def commaSep : String := ","

def lbracket : String := "["

def rbracket : String := "]"

/-- `JSON.stringify` of an array of strings. -/
def serializeErrors (errs : List String) : String :=
  lbracket ++ String.intercalate commaSep (errs.map quoteJson) ++ rbracket

def updateFailMsg : String := "Failed to update invoice status"

/-- `updateInvoiceStatus` (part_002 lines 115-131): set the status of
every row matching the id, and set `processingErrors` to the serialized
errors when an errors argument is given, to SQL NULL otherwise.  A
missing id updates zero rows and still succeeds. -/
def updateInvoiceStatus (env : SaveEnv) (id : String) (status : Status)
    (errors : Option (List String)) (db : DB) : Except String Unit × DB :=
  if env.updateFails then (Except.error updateFailMsg, db)
  else
    (Except.ok (),
      { db with
          invoices := db.invoices.map (fun r =>
            if r.id = id then
              { r with status := status, processingErrors := errors.map serializeErrors }
            else r) })

/-! ### The invoice branch of the route handler
(route.ts lines 339-403) -/

/-- The dynamic (duck-typed) payload handed to `saveInvoice` by the
route: the spread of `parsedResponse.data` with `issueDate`, `dueDate`
and `lineItems` overridden. -/
structure DynInvoiceData where
  invoiceNumber : Option Json
  totalAmount : Option Json
  currency : Option Json
  customerName : Option Json
  customerAddress : Option Json
  customerContact : Option Json
  customerTaxId : Option Json
  vendorName : Option Json
  vendorAddress : Option Json
  vendorContact : Option Json
  vendorTaxId : Option Json
  paymentTerms : Option Json
  notes : Option Json
  originalFileUrl : Option Json
  issueDate : JDate
  dueDate : JDate
  lineItems : Option Json

def coerceStr : Option Json → Option String
  | some (Json.str s) => some s
  | _ => none

/-- An optional text column: a string is stored as given, `null` and
`undefined` as SQL NULL.  Non-string values do not occur on the paths
any theorem exercises and are collapsed to NULL. -/
def coerceStrOpt : Option Json → Option String := coerceStr

def coerceNumOpt : Option Json → Option JsNum
  | some (Json.num q) => some q
  | _ => none

/-- The invoice-level columns of the insert: succeeds exactly when every
NOT NULL column receives a well-typed value (a missing or non-string
`invoiceNumber`/`customerName`/`vendorName`, a missing or non-numeric
`totalAmount`, or an invalid date make the insert statement fail). -/
def coerceInvoiceData (d : DynInvoiceData) : Option InvoiceData :=
  match coerceStr d.invoiceNumber, d.issueDate, d.dueDate, coerceNumOpt d.totalAmount,
      coerceStr d.customerName, coerceStr d.vendorName with
  | some inum, JDate.iso isoIssue, JDate.iso isoDue, some total, some cn, some vn =>
    some
      { invoiceNumber := inum
        issueDate := JDate.iso isoIssue
        dueDate := JDate.iso isoDue
        totalAmount := total
        currency := coerceStrOpt d.currency
        customerName := cn
        customerAddress := coerceStrOpt d.customerAddress
        customerContact := coerceStrOpt d.customerContact
        customerTaxId := coerceStrOpt d.customerTaxId
        vendorName := vn
        vendorAddress := coerceStrOpt d.vendorAddress
        vendorContact := coerceStrOpt d.vendorContact
        vendorTaxId := coerceStrOpt d.vendorTaxId
        paymentTerms := coerceStrOpt d.paymentTerms
        notes := coerceStrOpt d.notes
        originalFileUrl := coerceStrOpt d.originalFileUrl
        lineItems := [] }
  | _, _, _, _, _, _ => none

def kDescription : String := "description"

def kQuantity : String := "quantity"

def kUnitPrice : String := "unitPrice"

def kTotalPrice : String := "totalPrice"

def kTaxRate : String := "taxRate"

def kTaxAmount : String := "taxAmount"

def kSku : String := "sku"

def kCategory : String := "category"

/-- One element of `data.lineItems` as consumed by the line-item insert:
the NOT NULL columns `description`, `quantity`, `unitPrice`,
`totalPrice` must be well-typed for the insert statement to succeed. -/
def coerceLineItem (j : Json) : Option LineItemInput :=
  match coerceStr (jsMember j kDescription), coerceNumOpt (jsMember j kQuantity),
      coerceNumOpt (jsMember j kUnitPrice), coerceNumOpt (jsMember j kTotalPrice) with
  | some desc, some q, some up, some tp =>
    some
      { description := desc
        quantity := q
        unitPrice := up
        totalPrice := tp
        taxRate := coerceNumOpt (jsMember j kTaxRate)
        taxAmount := coerceNumOpt (jsMember j kTaxAmount)
        sku := coerceStrOpt (jsMember j kSku)
        category := coerceStrOpt (jsMember j kCategory) }
  | _, _, _, _ => none

/-- `saveInvoice` as called from the route with the dynamic payload: the
invoice insert fails (leaving the storage unchanged) when an invoice
NOT NULL column is missing; a failure in the line items leaves the
already-inserted invoice row behind, as in `saveInvoice` itself. -/
def dynSaveInvoice (env : SaveEnv) (d : DynInvoiceData) (db : DB) :
    Except String InvoiceRow × DB :=
  match coerceInvoiceData d with
  | none => (Except.error failMsg, db)
  | some base =>
    match d.lineItems with
    | some (Json.arr items) =>
      match items.mapM coerceLineItem with
      | some typed => saveInvoice env { base with lineItems := typed } db
      | none =>
        if env.invoiceInsertFails then (Except.error failMsg, db)
        else (Except.error failMsg, { db with invoices := db.invoices ++ [mkInvoiceRow env base] })
    | none => saveInvoice env base db
    | some _ =>
      if env.invoiceInsertFails then (Except.error failMsg, db)
      else (Except.error failMsg, { db with invoices := db.invoices ++ [mkInvoiceRow env base] })

/-- The terminal user-visible outcome of the invoice branch of
`onFinish`: the parse-failure message (line 370), the validation-failed
message with the error list (line 378), the success message with the
saved invoice (line 395), or the failed-to-save message written by the
surrounding catch (line 402), which also receives the `TypeError`s
thrown by property accesses on missing objects. -/
inductive Outcome where
  | parseFailed : Outcome
  | rejected (errs : List Json) : Outcome
  | saved (row : InvoiceRow) : Outcome
  | saveFailed : Outcome

/-- JavaScript strict equality of a possibly-undefined value with a
string literal. -/
def isStrEq (v : Option Json) (s : String) : Bool :=
  match v with
  | some (Json.str t) => t = s
  | _ => false

def kValidation : String := "validation"

def kStatus : String := "status"

def kValid : String := "valid"

def kErrors : String := "errors"

def kData : String := "data"

def kInvoiceNumber : String := "invoiceNumber"

def kIssueDate : String := "issueDate"

def kDueDate : String := "dueDate"

def kTotalAmount : String := "totalAmount"

def kCurrency : String := "currency"

def kCustomerName : String := "customerName"

def kCustomerAddress : String := "customerAddress"

def kCustomerContact : String := "customerContact"

def kCustomerTaxId : String := "customerTaxId"

def kVendorName : String := "vendorName"

def kVendorAddress : String := "vendorAddress"

def kVendorContact : String := "vendorContact"

def kVendorTaxId : String := "vendorTaxId"

def kPaymentTerms : String := "paymentTerms"

def kNotes : String := "notes"

def kOriginalFileUrl : String := "originalFileUrl"

def kLineItems : String := "lineItems"

def unknownErr : String := "Unknown validation error"

/-- Lines 374-403 of route.ts, applied to a successfully parsed
response.  Accessing `.status` on a missing or null `validation` and
accessing `.issueDate` on a missing or null `data` throw `TypeError`s
which the surrounding catch reports as the failed-to-save message. -/
def handleParsed (env : SaveEnv) (j : Json) (db : DB) : Outcome × DB :=
  match j with
  | Json.null => (Outcome.saveFailed, db)
  | _ =>
    match jsMember j kValidation with
    | none => (Outcome.saveFailed, db)
    | some Json.null => (Outcome.saveFailed, db)
    | some validation =>
      if isStrEq (jsMember validation kStatus) kValid then
        match jsMember j kData with
        | none => (Outcome.saveFailed, db)
        | some Json.null => (Outcome.saveFailed, db)
        | some dataJ =>
          let liV := jsMember dataJ kLineItems
          let dyn : DynInvoiceData :=
            { invoiceNumber := jsMember dataJ kInvoiceNumber
              totalAmount := jsMember dataJ kTotalAmount
              currency := jsMember dataJ kCurrency
              customerName := jsMember dataJ kCustomerName
              customerAddress := jsMember dataJ kCustomerAddress
              customerContact := jsMember dataJ kCustomerContact
              customerTaxId := jsMember dataJ kCustomerTaxId
              vendorName := jsMember dataJ kVendorName
              vendorAddress := jsMember dataJ kVendorAddress
              vendorContact := jsMember dataJ kVendorContact
              vendorTaxId := jsMember dataJ kVendorTaxId
              paymentTerms := jsMember dataJ kPaymentTerms
              notes := jsMember dataJ kNotes
              originalFileUrl := jsMember dataJ kOriginalFileUrl
              issueDate := jsDate (jsMember dataJ kIssueDate)
              dueDate := jsDate (jsMember dataJ kDueDate)
              lineItems := if truthy liV then liV else some (Json.arr []) }
          match dynSaveInvoice env dyn db with
          | (Except.ok row, db2) => (Outcome.saved row, db2)
          | (Except.error _, db2) => (Outcome.saveFailed, db2)
      else
        let errV := jsMember validation kErrors
        let errs := if truthy errV then errV else some (Json.arr [Json.str unknownErr])
        match errs with
        | some (Json.arr es) => (Outcome.rejected es, db)
        | _ => (Outcome.saveFailed, db)

/-- Lines 350-403 of route.ts: strip markdown fences, `JSON.parse` the
content (a failure is reported as the parse-failure message and nothing
more happens), then run the validation gate and persistence. -/
def processInvoiceContent (env : SaveEnv) (content : String) (db : DB) : Outcome × DB :=
  match jsonParse (cleanContent content) with
  | none => (Outcome.parseFailed, db)
  | some j => handleParsed env j db

/-! ### The orchestrator race (route.ts lines 265-269 and 416-429) -/

def timeoutMs : ℕ := 30000

/-- What the caller is told first: the merged stream completing, or the
timeout rejection surfaced through `onError`. -/
inductive Report where
  | completed : Report
  | timedOut : Report
deriving DecidableEq

/-- One orchestrator run: when (if ever) the underlying extraction call
settles, and the assistant content it settles with. -/
structure RunInput where
  settleTime : Option ℕ
  content : String

/-- `Promise.race([streamPromise.mergeIntoDataStream(...), timeoutPromise])`:
whichever settles first is what the caller sees. -/
def reportOf (run : RunInput) : Report :=
  match run.settleTime with
  | some t => if t < timeoutMs then Report.completed else Report.timedOut
  | none => Report.timedOut

/-- The persistence effect of a run: `onFinish` fires whenever the
underlying extraction call settles — there is no flag gating it on
whether the timeout was already reported — and never fires when the
call never settles. -/
def finalDb (env : SaveEnv) (run : RunInput) (db : DB) : DB :=
  match run.settleTime with
  | some _ => (processInvoiceContent env run.content db).2
  | none => db

/-! ### The money normalizer (spec section 4.1) -/

/-- `toMinorUnits`: multiply by 100 and round to the nearest integer,
`Math.round(x * 100)` as at part_002 line 46. -/
def toMinorUnits (a : JsNum) : ℤ := jsRound100 a

/-- Modelled from the spec: `toDecimal(minorUnits) -> number` divides by
100.  The decimal direction of the normalizer has no function of its own
in the included sources. -/
def toDecimal (m : ℤ) : JsNum := ⟨m, 100⟩

/-! ### Concrete inputs used by the individual claims -/

/-- An environment in which every storage operation succeeds. -/
def envOk : SaveEnv :=
  { newId := "inv-0"
    itemId := fun i => "item-" ++ toString i
    now := 1700000000000
    invoiceInsertFails := false
    lineItemInsertFails := false
    updateFails := false }

/-- An environment in which the invoice insert succeeds but the
line-item insert fails. -/
def envLineItemFail : SaveEnv :=
  { envOk with lineItemInsertFails := true }

def isoJan01 : String := "2024-01-01T00:00:00.000Z"

def isoJan15 : String := "2024-01-15T00:00:00.000Z"

def c1item1 : LineItemInput :=
  { description := "Widget"
    quantity := ⟨2, 1⟩
    unitPrice := ⟨10, 1⟩
    totalPrice := ⟨20, 1⟩
    taxRate := none
    taxAmount := none
    sku := none
    category := none }

def c1item2 : LineItemInput :=
  { c1item1 with description := "Bolt", unitPrice := ⟨5, 1⟩, totalPrice := ⟨10, 1⟩ }

/-- A well-formed `InvoiceData` with two line items. -/
def c1data : InvoiceData :=
  { invoiceNumber := "INV-2"
    issueDate := JDate.iso isoJan01
    dueDate := JDate.iso isoJan15
    totalAmount := ⟨30, 1⟩
    currency := none
    customerName := "Acme"
    customerAddress := none
    customerContact := none
    customerTaxId := none
    vendorName := "Bolt Co"
    vendorAddress := none
    vendorContact := none
    vendorTaxId := none
    paymentTerms := none
    notes := none
    originalFileUrl := none
    lineItems := [c1item1, c1item2] }

/-- The raw model output of the C6 scenario: a json-fenced valid payload. -/
def c6raw : String :=
  "```json\n\x7b\"validation\":\x7b\"status\":\"valid\"\x7d,\"data\":\x7b\"invoiceNumber\":\"INV-1\",\"issueDate\":\"2024-01-01T00:00:00.000Z\",\"dueDate\":\"2024-01-15T00:00:00.000Z\",\"totalAmount\":120.50,\"customerName\":\"Acme\",\"vendorName\":\"Bolt Co\",\"lineItems\":[]\x7d\x7d\n```"

/-- The invoice row the C6 scenario persists. -/
def c6row : InvoiceRow :=
  { id := "inv-0"
    createdAt := 1700000000000
    invoiceNumber := "INV-1"
    issueDate := JDate.iso isoJan01
    dueDate := JDate.iso isoJan15
    totalAmount := 12050
    currency := "USD"
    status := Status.validated
    customerName := "Acme"
    customerAddress := none
    customerContact := none
    customerTaxId := none
    vendorName := "Bolt Co"
    vendorAddress := none
    vendorContact := none
    vendorTaxId := none
    paymentTerms := none
    notes := none
    originalFileUrl := none
    processingErrors := none }

/-- A run in which the extraction call settles 45 seconds in — after the
30-second timeout has been reported — with a valid payload. -/
def c2run : RunInput :=
  { settleTime := some 45000
    content := c6raw }

/-- Raw output declared invalid with an empty errors list. -/
def c3raw : String :=
  "\x7b\"validation\":\x7b\"status\":\"invalid\",\"errors\":[]\x7d\x7d"

def c3errMsg : String := "Missing total amount"

def c3validation : Json :=
  Json.obj [(kStatus, Json.str "invalid"), (kErrors, Json.arr [Json.str c3errMsg])]

def c3j : Json := Json.obj [(kValidation, c3validation)]

/-- Valid-status payload missing `invoiceNumber`. -/
def c4raw : String :=
  "\x7b\"validation\":\x7b\"status\":\"valid\"\x7d,\"data\":\x7b\"issueDate\":\"2024-01-01T00:00:00.000Z\",\"dueDate\":\"2024-01-15T00:00:00.000Z\",\"totalAmount\":100,\"customerName\":\"Acme\",\"vendorName\":\"Bolt Co\",\"lineItems\":[]\x7d\x7d"

/-- Valid-status payload whose due date precedes its issue date. -/
def c5raw : String :=
  "\x7b\"validation\":\x7b\"status\":\"valid\"\x7d,\"data\":\x7b\"invoiceNumber\":\"INV-3\",\"issueDate\":\"2024-01-15T00:00:00.000Z\",\"dueDate\":\"2024-01-01T00:00:00.000Z\",\"totalAmount\":100,\"customerName\":\"Acme\",\"vendorName\":\"Bolt Co\",\"lineItems\":[]\x7d\x7d"

/-- A decodable JSON object without a `validation` key. -/
def c8raw : String := "\x7b\"foo\":1\x7d"

/-- A decodable JSON object with valid status but no `data` key. -/
def c8raw2 : String := "\x7b\"validation\":\x7b\"status\":\"valid\"\x7d\x7d"

def c8j2 : Json := Json.obj [(kValidation, Json.obj [(kStatus, Json.str kValid)])]

def c7id : String := "inv-7"

def c7missingId : String := "no-such-id"

def staleErr : String := "stale"

/-- A stored invoice row carrying a leftover errors field. -/
def c7row : InvoiceRow :=
  { c6row with id := c7id, processingErrors := some "old" }

def c7db : DB := ⟨[c7row], []⟩

def c10item0 : LineItemInput :=
  { c1item1 with taxAmount := some ⟨0, 1⟩, taxRate := some ⟨2000, 1⟩ }

def c10item1 : LineItemInput :=
  { c1item1 with taxAmount := some ⟨25, 10⟩ }

def c10data : InvoiceData :=
  { c1data with lineItems := [c10item0, c10item1] }

def c9sample : JsNum := ⟨247, 100⟩

/-- The invoice row persisted from `c5raw`: due date before issue date. -/
def c5row : InvoiceRow :=
  { c6row with
      invoiceNumber := "INV-3"
      issueDate := JDate.iso isoJan15
      dueDate := JDate.iso isoJan01
      totalAmount := 10000 }

/-- `JSON.stringify(["stale"])`. -/
def c7serialized : String := "[\"stale\"]"

def kFoo : String := "foo"

/-! ## Theorems for the claims -/

/-- Claim C1: the spec requires `saveInvoice` to be atomic — if a
line-item insert fails, no Invoice row and no InvoiceLineItem rows may
remain.  The code has no transaction: evaluating `saveInvoice` on a
two-line-item input whose line-item insert fails shows the call failing
while the Invoice row remains committed in storage. -/
theorem saveInvoice_partial_commit_on_line_item_failure :
    (saveInvoice envLineItemFail c1data DB.empty).1 = Except.error failMsg ∧
    (saveInvoice envLineItemFail c1data DB.empty).2.invoices.length = 1 ∧
    (saveInvoice envLineItemFail c1data DB.empty).2.lineItems.length = 0 :=
  ⟨rfl, rfl, rfl⟩

set_option maxRecDepth 40000 in
/-- Claim C2: the spec requires that once the 30-second timeout has been
reported, a late extraction result never triggers a persistence write.
In the code `onFinish` is not gated on the race outcome: a run whose
extraction call settles at 45 seconds with a valid payload is reported
as timed out, yet the invoice is still saved. -/
theorem late_result_saved_after_timeout_reported :
    reportOf c2run = Report.timedOut ∧
    (finalDb envOk c2run DB.empty).invoices = [c6row] :=
  ⟨rfl, rfl⟩

set_option maxRecDepth 40000 in
/-- Claim C6: the fenced valid payload of the scenario parses, passes
the gate, and persists exactly one Invoice row with `totalAmount` equal
to 12050 minor units and the default currency `USD`. -/
theorem fenced_valid_payload_persists_minor_units_and_default_currency :
    processInvoiceContent envOk c6raw DB.empty = (Outcome.saved c6row, ⟨[c6row], []⟩) ∧
    c6row.totalAmount = 12050 ∧ c6row.currency = defaultCurrency :=
  ⟨rfl, rfl, rfl⟩

set_option maxRecDepth 40000 in
/-- Claim C4 (spec): a valid-status payload missing a required field is
rejected by the gate with a field-specific reason and never persisted.
The code has no local required-field check: on a payload missing
`invoiceNumber` it proceeds to persistence, whose insert fails, and the
outcome is the generic failed-to-save message — no field-naming
rejection is produced (nothing is written, which matches the claim only
in its second half). -/
theorem missing_required_field_not_field_rejected :
    processInvoiceContent envOk c4raw DB.empty = (Outcome.saveFailed, DB.empty) :=
  rfl

set_option maxRecDepth 40000 in
/-- Claim C5 (spec): a payload with `dueDate` strictly before
`issueDate` is rejected and never persisted.  The code has no local
date-ordering check: a valid-status payload whose due date
(2024-01-01) precedes its issue date (2024-01-15) is accepted and the
invoice row is persisted. -/
theorem due_date_before_issue_date_persisted :
    processInvoiceContent envOk c5raw DB.empty = (Outcome.saved c5row, ⟨[c5row], []⟩) ∧
    c5row.dueDate = JDate.iso isoJan01 ∧
    c5row.issueDate = JDate.iso isoJan15 ∧
    strLt isoJan01 isoJan15 = true :=
  ⟨rfl, rfl, rfl, rfl⟩

set_option maxRecDepth 40000 in
/-- Claim C3, counterexample: with `validation.status = "invalid"` and
an empty `errors` array, the code rejects with the empty message list —
an empty array is truthy in JavaScript, so the
`["Unknown validation error"]` fallback the claim requires for an empty
list is not applied. -/
theorem empty_errors_list_kept_not_replaced :
    processInvoiceContent envOk c3raw DB.empty = (Outcome.rejected [], DB.empty) :=
  rfl

/-- Claim C7, counterexample: `updateInvoiceStatus` succeeds (no
`NotFound` failure) on an id with no matching invoice, and, for a
status other than `invalid` with an errors argument supplied, it stores
the serialized errors instead of clearing the field. -/
theorem updateInvoiceStatus_no_notfound_and_keeps_errors :
    updateInvoiceStatus envOk c7missingId Status.validated none DB.empty
      = (Except.ok (), DB.empty) ∧
    List.map InvoiceRow.processingErrors
        (updateInvoiceStatus envOk c7id Status.processed (some [staleErr]) c7db).2.invoices
      = [some c7serialized] :=
  ⟨rfl, rfl⟩

set_option maxRecDepth 40000 in
/-- Claim C8, counterexample: a raw output that decodes as JSON but has
no `validation` key does not produce a `MalformedSchema` parse error —
the property access throws and the catch reports the generic
failed-to-save message (the parse-failure outcome is not used either). -/
theorem missing_validation_key_generic_save_failure :
    jsonParse (cleanContent c8raw) = some (Json.obj [(kFoo, Json.num ⟨1, 1⟩)]) ∧
    processInvoiceContent envOk c8raw DB.empty = (Outcome.saveFailed, DB.empty) :=
  ⟨rfl, rfl⟩

/-- Claim C3 (amended): for every parsed response whose
`validation.status` is not the string `"valid"`, the gate rejects
carrying the model's stated errors — falling back to
`["Unknown validation error"]` only when the errors field is absent,
while a present (even empty) errors array is passed through unchanged —
and persistence is never called: the storage is unchanged. -/
theorem invalid_status_rejects_with_model_errors_and_no_write
    (env : SaveEnv) (db : DB) (j v : Json)
    (hv : jsMember j kValidation = some v)
    (hvn : v ≠ Json.null)
    (hs : isStrEq (jsMember v kStatus) kValid = false) :
    (jsMember v kErrors = none →
      handleParsed env j db = (Outcome.rejected [Json.str unknownErr], db)) ∧
    (∀ es, jsMember v kErrors = some (Json.arr es) →
      handleParsed env j db = (Outcome.rejected es, db)) := by
  cases j <;> simp only [jsMember] at hv <;> try exact absurd hv (by simp)
  case obj ms =>
  refine ⟨fun he => ?_, fun es he => ?_⟩
  · cases v with
    | null => exact absurd rfl hvn
    | obj ms2 =>
      simp only [jsMember] at hs he
      simp [handleParsed, jsMember, hv, hs, he, truthy]
    | bool b =>
      simp only [jsMember] at hs
      simp [handleParsed, jsMember, hv, hs, truthy]
    | num q =>
      simp only [jsMember] at hs
      simp [handleParsed, jsMember, hv, hs, truthy]
    | str s2 =>
      simp only [jsMember] at hs
      simp [handleParsed, jsMember, hv, hs, truthy]
    | arr es2 =>
      simp only [jsMember] at hs
      simp [handleParsed, jsMember, hv, hs, truthy]
  · cases v with
    | null => exact absurd rfl hvn
    | obj ms2 =>
      simp only [jsMember] at hs he
      simp [handleParsed, jsMember, hv, hs, he, truthy]
    | bool b => exact absurd he (by simp [jsMember])
    | num q => exact absurd he (by simp [jsMember])
    | str s2 => exact absurd he (by simp [jsMember])
    | arr es2 => exact absurd he (by simp [jsMember])

/-- Claim C3, witness: the scenario input — status `"invalid"`, errors
`["Missing total amount"]` — is rejected with exactly that message list
and the storage stays empty. -/
theorem invalid_status_rejects_witness :
    handleParsed envOk c3j DB.empty = (Outcome.rejected [Json.str c3errMsg], DB.empty) :=
  (invalid_status_rejects_with_model_errors_and_no_write envOk DB.empty c3j c3validation
    rfl (by simp [c3validation]) rfl).2 [Json.str c3errMsg] rfl

/-- Claim C7 (amended): `updateInvoiceStatus` sets the status of the
matching invoice; it attaches the serialized errors list whenever an
errors argument is supplied (regardless of status) and sets the errors
field to NULL whenever it is not; rows with other ids are untouched;
and the call succeeds even when no invoice with the id exists (there is
no `NotFound` failure). -/
theorem updateInvoiceStatus_sets_status_and_errors_field
    (env : SaveEnv) (id : String) (st : Status) (errors : Option (List String)) (db : DB)
    (h : env.updateFails = false) :
    (updateInvoiceStatus env id st errors db).1 = Except.ok () ∧
    (updateInvoiceStatus env id st errors db).2.invoices.length = db.invoices.length ∧
    (∀ r ∈ db.invoices, r.id ≠ id →
      r ∈ (updateInvoiceStatus env id st errors db).2.invoices) ∧
    (∀ r ∈ db.invoices, r.id = id →
      { r with status := st, processingErrors := errors.map serializeErrors }
        ∈ (updateInvoiceStatus env id st errors db).2.invoices) := by
  refine ⟨by simp [updateInvoiceStatus, h], by simp [updateInvoiceStatus, h], ?_, ?_⟩
  · intro r hr hne
    have hmem : r ∈ db.invoices.map
        (fun r : InvoiceRow =>
          if r.id = id then { r with status := st, processingErrors := errors.map serializeErrors }
          else r) :=
      List.mem_map.mpr ⟨r, hr, by simp [hne]⟩
    simpa [updateInvoiceStatus, h] using hmem
  · intro r hr heq
    have hmem : { r with status := st, processingErrors := errors.map serializeErrors }
        ∈ db.invoices.map
          (fun r : InvoiceRow =>
            if r.id = id then { r with status := st, processingErrors := errors.map serializeErrors }
            else r) :=
      List.mem_map.mpr ⟨r, hr, by simp [heq]⟩
    simpa [updateInvoiceStatus, h] using hmem

/-- Claim C7, witness: updating the stored invoice to `invalid` with an
errors list succeeds. -/
theorem updateInvoiceStatus_sets_status_witness :
    (updateInvoiceStatus envOk c7id Status.invalid (some [staleErr]) c7db).1 = Except.ok () :=
  (updateInvoiceStatus_sets_status_and_errors_field envOk c7id Status.invalid
    (some [staleErr]) c7db rfl).1

/-- Claim C8 (amended): a raw output that decodes as JSON but lacks the
`validation` key — or, with valid status, lacks the `data` key — is not
given a `MalformedSchema` parse error: the property access throws a
`TypeError` that the save-stage catch reports as the generic
failed-to-save message, and the storage is unchanged. -/
theorem shape_mismatch_reported_as_save_failure
    (env : SaveEnv) (s : String) (db : DB) (j : Json)
    (hp : jsonParse (cleanContent s) = some j)
    (h : jsMember j kValidation = none ∨
      (∃ v, jsMember j kValidation = some v ∧ v ≠ Json.null ∧
        isStrEq (jsMember v kStatus) kValid = true ∧ jsMember j kData = none)) :
    processInvoiceContent env s db = (Outcome.saveFailed, db) := by
  have hgoal : handleParsed env j db = (Outcome.saveFailed, db) := by
    rcases h with hnone | ⟨v, hv, hvn, hst, hd⟩
    · cases j with
      | obj ms =>
        simp only [jsMember] at hnone
        simp [handleParsed, jsMember, hnone]
      | null => simp [handleParsed]
      | bool b => simp [handleParsed, jsMember]
      | num q => simp [handleParsed, jsMember]
      | str s2 => simp [handleParsed, jsMember]
      | arr es => simp [handleParsed, jsMember]
    · cases j <;> simp only [jsMember] at hv hd <;> try exact absurd hv (by simp)
      case obj ms =>
      cases v with
      | obj ms2 =>
        simp only [jsMember] at hst
        simp [handleParsed, jsMember, hv, hst, hd]
      | null => exact absurd rfl hvn
      | bool b => simp [jsMember, isStrEq] at hst
      | num q => simp [jsMember, isStrEq] at hst
      | str s2 => simp [jsMember, isStrEq] at hst
      | arr es => simp [jsMember, isStrEq] at hst
  simp [processInvoiceContent, hp, hgoal]

/-- Claim C8, witness: a decoded object with valid status but no `data`
key is reported through the failed-to-save message with nothing
written. -/
theorem shape_mismatch_witness :
    processInvoiceContent envOk c8raw2 DB.empty = (Outcome.saveFailed, DB.empty) :=
  shape_mismatch_reported_as_save_failure envOk c8raw2 DB.empty c8j2 (by rfl)
    (Or.inr ⟨Json.obj [(kStatus, Json.str kValid)], rfl, by simp [c8j2], rfl, rfl⟩)

/-- Claim C9: for every non-negative JavaScript number with at most two
fractional digits (its value is `m/100` for an integer `m`), converting
to minor units with `toMinorUnits` (multiply by 100, `Math.round`) and
back with `toDecimal` (divide by 100) yields the same number. -/
theorem toDecimal_toMinorUnits_roundtrip (a : JsNum) (hd : 0 < a.d) (h0 : 0 ≤ a.n)
    (h2 : ∃ m : ℤ, a.n * 100 = m * (a.d : ℤ)) :
    JsNum.eq (toDecimal (toMinorUnits a)) a := by
  obtain ⟨m, hm⟩ := h2
  have hdz : (0 : ℤ) < (a.d : ℤ) := by exact_mod_cast hd
  have h2d : (0 : ℤ) < 2 * (a.d : ℤ) := by linarith
  have hround : toMinorUnits a = m := by
    show Int.fdiv (2 * (a.n * ((100 : ℕ) : ℤ)) + (a.d : ℤ)) (2 * (a.d : ℤ)) = m
    have hcast : a.n * ((100 : ℕ) : ℤ) = m * (a.d : ℤ) := by push_cast; linarith [hm]
    rw [hcast, Int.fdiv_eq_ediv _ (le_of_lt h2d)]
    have harr : 2 * (m * (a.d : ℤ)) + (a.d : ℤ) = (a.d : ℤ) + m * (2 * (a.d : ℤ)) := by ring
    rw [harr, Int.add_mul_ediv_right _ _ (ne_of_gt h2d),
      Int.ediv_eq_zero_of_lt (le_of_lt hdz) (by linarith), zero_add]
  show (toDecimal (toMinorUnits a)).n * (a.d : ℤ)
      = a.n * (((toDecimal (toMinorUnits a)).d : ℕ) : ℤ)
  rw [hround]
  show m * (a.d : ℤ) = a.n * ((100 : ℕ) : ℤ)
  push_cast
  linarith [hm]

/-- Claim C9, witness: the round trip at the concrete amount 2.47. -/
theorem toDecimal_toMinorUnits_roundtrip_witness :
    0 < c9sample.d ∧ JsNum.eq (toDecimal (toMinorUnits c9sample)) c9sample :=
  ⟨by decide,
    toDecimal_toMinorUnits_roundtrip c9sample (by decide) (by decide) ⟨247, by decide⟩⟩

theorem mkLineItemRows_get (env : SaveEnv) (inv : String) (items : List LineItemInput) :
    ∀ st i : ℕ, (mkLineItemRows env inv st items)[i]?
      = (items[i]?).map (mkLineItemRow env inv (st + i)) := by
  induction items with
  | nil => intro st i; simp [mkLineItemRows]
  | cons head tail ih =>
    intro st i
    cases i with
    | zero => simp [mkLineItemRows]
    | succ k =>
      simp only [mkLineItemRows, List.getElem?_cons_succ, ih (st + 1) k, Nat.add_succ,
        Nat.succ_add]

/-- Claim C10: in a successful `saveInvoice`, the row stored for the
i-th line item has its tax amount absent when the input tax amount is
zero or absent and converted to minor units otherwise, its unit and
total prices converted via `Math.round(x * 100)`, and its tax rate
stored verbatim with no unit conversion. -/
theorem saveInvoice_line_item_field_conversions
    (env : SaveEnv) (data : InvoiceData) (db : DB)
    (h1 : env.invoiceInsertFails = false) (h2 : env.lineItemInsertFails = false)
    (i : ℕ) (item : LineItemInput) (hi : data.lineItems[i]? = some item) :
    Option.map LineItemRow.taxAmount
        ((saveInvoice env data db).2.lineItems[db.lineItems.length + i]?)
      = some (match item.taxAmount with
              | some ta => if ta.n = 0 then none else some (jsRound100 ta)
              | none => none) ∧
    Option.map LineItemRow.unitPrice
        ((saveInvoice env data db).2.lineItems[db.lineItems.length + i]?)
      = some (jsRound100 item.unitPrice) ∧
    Option.map LineItemRow.totalPrice
        ((saveInvoice env data db).2.lineItems[db.lineItems.length + i]?)
      = some (jsRound100 item.totalPrice) ∧
    Option.map LineItemRow.taxRate
        ((saveInvoice env data db).2.lineItems[db.lineItems.length + i]?)
      = some item.taxRate := by
  have hlen : i < data.lineItems.length := by
    by_contra hc
    push_neg at hc
    rw [List.getElem?_eq_none hc] at hi
    exact Option.noConfusion hi
  have hpos : 0 < data.lineItems.length := Nat.lt_of_le_of_lt (Nat.zero_le i) hlen
  have hrow : (saveInvoice env data db).2.lineItems[db.lineItems.length + i]?
      = some (mkLineItemRow env env.newId i item) := by
    have hstate : (saveInvoice env data db).2.lineItems
        = db.lineItems ++ mkLineItemRows env env.newId 0 data.lineItems := by
      simp [saveInvoice, h1, h2, hpos]
    rw [hstate, List.getElem?_append_right (Nat.le_add_right _ _)]
    simp [mkLineItemRows_get, hi]
  rw [hrow]
  exact ⟨rfl, rfl, rfl, rfl⟩

/-- Claim C10, witness: the first line item of the concrete input has
tax amount zero and is stored with an absent tax amount; prices are
converted and the tax rate kept verbatim. -/
theorem saveInvoice_line_item_field_conversions_witness :
    Option.map LineItemRow.taxAmount
        ((saveInvoice envOk c10data DB.empty).2.lineItems[DB.empty.lineItems.length + 0]?)
      = some (match c10item0.taxAmount with
              | some ta => if ta.n = 0 then none else some (jsRound100 ta)
              | none => none) ∧
    Option.map LineItemRow.unitPrice
        ((saveInvoice envOk c10data DB.empty).2.lineItems[DB.empty.lineItems.length + 0]?)
      = some (jsRound100 c10item0.unitPrice) ∧
    Option.map LineItemRow.totalPrice
        ((saveInvoice envOk c10data DB.empty).2.lineItems[DB.empty.lineItems.length + 0]?)
      = some (jsRound100 c10item0.totalPrice) ∧
    Option.map LineItemRow.taxRate
        ((saveInvoice envOk c10data DB.empty).2.lineItems[DB.empty.lineItems.length + 0]?)
      = some c10item0.taxRate :=
  saveInvoice_line_item_field_conversions envOk c10data DB.empty rfl rfl 0 c10item0 rfl

end InvoiceProc
